import Mathlib

/-!
# pi-peer-healthcheck — shallow embedding and verification

Shallow embedding of the peer health-state model of `pi-peer-healthcheck`
(`src/PiPeer.py` and `src/pi-peer-healthcheck.py`).

External effects (hostname resolution, the `ping`/`nslookup` subprocesses,
SMTP delivery) are modelled by an explicit per-call environment:
* hostname resolution outcome: `Option String` (`none` = `socket.gethostbyname`
  raised, mirroring `except: return None` in `PiPeer.resolve_ip`);
* a subprocess run outcome: `ProcResult` (an exit code, or an exception raised
  by `subprocess.run` itself);
* SMTP delivery outcome: a `Bool` (`false` = `smtplib` raised, turned into a
  `RuntimeError` by `send_email`).

The state of one `PiPeer` object is the record of its three instance
attributes.  The driver loop of `main` is transcribed statement by statement
into `checkProbes` / `checkPeer` / `runCycle` / `runCycles`, with the local
variable `reason` of `main` threaded through as `Option String` (`none` =
the Python local is still unbound).
-/

/-- State of a `PiPeer` object (`src/PiPeer.py`, lines 18-24): its three
instance attributes.  A constructed peer always carries a non-`None`
`ip_address` (the constructor raises otherwise), and no code ever reassigns
`ip_address` after construction, so it is a plain `String` here. -/
structure PiPeer where
  hostname : String
  ip_address : String
  status : String
deriving DecidableEq, Repr

/-- Outcome of one `subprocess.run` call: the exit code of the spawned
command, or an exception escaping `subprocess.run` itself (caught by the
`except Exception` blocks in `peer_ping` / `test_dns`). -/
inductive ProcResult where
  | exitCode (code : Int)
  | raised
deriving DecidableEq, Repr

instance : Inhabited ProcResult := ⟨ProcResult.exitCode 0⟩

/-- The external outcomes one peer's per-cycle check sequence can observe:
the resolution result, the two subprocess outcomes, and whether the SMTP
send (if any) succeeds. -/
structure ProbeEnv where
  resolveRes : Option String
  pingRes : ProcResult
  dnsRes : ProcResult
  sendOk : Bool
deriving DecidableEq, Repr

instance : Inhabited ProbeEnv := ⟨⟨none, default, default, true⟩⟩

/-- The slice of the parsed command-line arguments (`get_args`) the health
logic reads, plus the local hostname read once at module load for
`EMAIL_FROM`.  `email = none` models the `--email` flag being absent. -/
structure Config where
  dnscheck : Bool
  email : Option String
  smtp_server : String
  timeout : Nat
  localHostname : String
deriving DecidableEq, Repr

/-- `PiPeer.resolve_ip` (`src/PiPeer.py`, lines 26-34):
`try: return socket.gethostbyname(self.hostname)` — the statement
`self.status = "healthy"` that follows the `return` is dead code and never
executes — `except Exception: return None`.  The method returns the
resolution outcome and leaves the object state unchanged. -/
def PiPeer.resolve_ip (p : PiPeer) (res : Option String) : Option String × PiPeer :=
  match res with
  | some ip => (some ip, p)
  | none => (none, p)

/-- `PiPeer.__init__` (`src/PiPeer.py`, lines 18-24): sets `hostname`,
`status = "unknown"`, `ip_address = self.resolve_ip()`; raises `ValueError`
(here: `none`) when resolution returned `None`. -/
def PiPeer.init (hostname : String) (res : Option String) : Option PiPeer :=
  match res with
  | some ip => some { hostname := hostname, ip_address := ip, status := "unknown" }
  | none => none

/-- The shell command built by `PiPeer.peer_ping` (`src/PiPeer.py`, line 41). -/
def ping_command (p : PiPeer) (timeout : Nat) : String :=
  "ping -c 4 -W " ++ toString timeout ++ " " ++ p.ip_address

/-- The shell command built by `PiPeer.test_dns` (`src/PiPeer.py`, line 57). -/
def dns_command (p : PiPeer) (timeout : Nat) : String :=
  "timeout " ++ toString timeout ++ " nslookup " ++ p.hostname ++ " " ++ p.ip_address

/-- `PiPeer.peer_ping` (`src/PiPeer.py`, lines 36-50): builds and runs the
ping command; non-zero exit code sets `status = "unhealthy"` and returns
`False`, zero exit sets `status = "healthy"` and returns `True`; any
exception is swallowed, setting `status = "unhealthy"` and returning
`False`. -/
def PiPeer.peer_ping (p : PiPeer) (timeout : Nat) (sub : ProcResult) : PiPeer × Bool :=
  let _cmd := ping_command p timeout
  match sub with
  | ProcResult.exitCode c =>
      if c ≠ 0 then ({ p with status := "unhealthy" }, false)
      else ({ p with status := "healthy" }, true)
  | ProcResult.raised => ({ p with status := "unhealthy" }, false)

/-- `PiPeer.test_dns` (`src/PiPeer.py`, lines 52-66): same shape as
`peer_ping` for the `nslookup` command. -/
def PiPeer.test_dns (p : PiPeer) (timeout : Nat) (sub : ProcResult) : PiPeer × Bool :=
  let _cmd := dns_command p timeout
  match sub with
  | ProcResult.exitCode c =>
      if c ≠ 0 then ({ p with status := "unhealthy" }, false)
      else ({ p with status := "healthy" }, true)
  | ProcResult.raised => ({ p with status := "unhealthy" }, false)

/-- Whether a subprocess outcome counts as a failed probe
(`returncode != 0`, or the `except Exception` branch). -/
def procFails : ProcResult → Bool
  | ProcResult.exitCode c => c != 0
  | ProcResult.raised => true

/-- `SUBJECT_PREFIX` (`src/pi-peer-healthcheck.py`, line 21). -/
def SUBJECT_PREFIX : String := "[pi-peer-healthcheck ALERT]: "

/-- `EMAIL_FROM` (`src/pi-peer-healthcheck.py`, line 22): built once from
the local host's name. -/
def EMAIL_FROM (localHostname : String) : String :=
  "pi-peer-healthcheck@" ++ localHostname ++ ".kevind.link"

/-- One `send_email` invocation as the alert sink sees it: recipient,
subject and body of the outbound message
(`src/pi-peer-healthcheck.py`, lines 94-111 and 192-195). -/
structure Alert where
  recipient : String
  subject : String
  body : String
deriving DecidableEq, Repr

/-- `send_email` (`src/pi-peer-healthcheck.py`, lines 94-111): on SMTP
success returns the rendered message, on SMTP failure raises (here:
`Except.error`) a `RuntimeError` naming the recipient. -/
def send_email (email_from email_address smtp_server subject body : String)
    (smtpOk : Bool) : Except String String :=
  if smtpOk then
    Except.ok ("From: " ++ email_from ++ "\nTo: " ++ email_address ++
      "\nSubject: " ++ subject ++ "\nServer: " ++ smtp_server ++ "\n\n" ++ body)
  else
    Except.error ("Failed to send email to " ++ email_address)

/-- Subject of the unhealthy-peer alert (`src/pi-peer-healthcheck.py`,
line 194). -/
def alert_subject (p : PiPeer) : String :=
  SUBJECT_PREFIX ++ "Raspberry Pi Peer " ++ p.hostname ++ " is UNHEALTHY!"

/-- Body of the unhealthy-peer alert (`src/pi-peer-healthcheck.py`,
line 195).  Reading the `reason` local while unbound would be a `NameError`
in Python; that branch is unreachable in `checkPeer` because an alert fires
only after some probe failure assigned `reason`. -/
def alert_body (p : PiPeer) (reason : Option String) : String :=
  "Healthcheck for peer " ++ p.hostname ++ " (" ++ p.ip_address ++
    ") failed due to: " ++
    (match reason with
     | some r => r
     | none => "<NameError: reason referenced before assignment>") ++
    ".\n\nPlease investigate the issue."

/-- The resolve/ping/dns part of one peer's per-cycle checks
(`src/pi-peer-healthcheck.py`, lines 161-189).  Returns the peer state
after the probes, the value of the `reason` local, and the subprocess
commands executed, in order.  Note line 163 binds `resolved_ip` and only
logs it: the result of the per-cycle resolution is never stored back into
`peer.ip_address`. -/
def checkProbes (cfg : Config) (env : ProbeEnv) (p0 : PiPeer)
    (reason0 : Option String) : PiPeer × Option String × List String :=
  let resolveOut := PiPeer.resolve_ip p0 env.resolveRes
  let p1 := resolveOut.2
  let reason1 :=
    match resolveOut.1 with
    | none => some "Hostname cannot be resolved"
    | some _ => reason0
  let pingOut := PiPeer.peer_ping p1 cfg.timeout env.pingRes
  let p2 := pingOut.1
  let reason2 := if pingOut.2 then reason1 else some "Host cannot be pinged"
  if cfg.dnscheck then
    let dnsOut := PiPeer.test_dns p2 cfg.timeout env.dnsRes
    (dnsOut.1,
     (if dnsOut.2 then reason2 else some "Host not responding to DNS queries"),
     [ping_command p1 cfg.timeout, dns_command p2 cfg.timeout])
  else
    (p2, reason2, [ping_command p1 cfg.timeout])

/-- Result of one peer's full per-cycle processing: final peer state,
final value of the `reason` local, subprocess commands run, alert messages
handed to `send_email`, and the outcomes of those send attempts. -/
structure CheckResult where
  peer : PiPeer
  reason : Option String
  commands : List String
  alerts : List Alert
  sendResults : List (Except String String)
deriving Repr

/-- One peer's full per-cycle processing
(`src/pi-peer-healthcheck.py`, lines 158-203): the probes, then
`if peer.status == "unhealthy" and argDict["email"]:` send one alert email;
a send failure is caught by the surrounding `try`/`except` (it lands in
`sendResults` and influences nothing else). -/
def checkPeer (cfg : Config) (env : ProbeEnv) (p0 : PiPeer)
    (reason0 : Option String) : CheckResult :=
  let s := checkProbes cfg env p0 reason0
  let p3 := s.1
  let reason3 := s.2.1
  let cmds := s.2.2
  if p3.status = "unhealthy" then
    match cfg.email with
    | some addr =>
        let subj := alert_subject p3
        let bod := alert_body p3 reason3
        { peer := p3, reason := reason3, commands := cmds,
          alerts := [{ recipient := addr, subject := subj, body := bod }],
          sendResults := [send_email (EMAIL_FROM cfg.localHostname) addr
            cfg.smtp_server subj bod env.sendOk] }
    | none =>
        { peer := p3, reason := reason3, commands := cmds,
          alerts := [], sendResults := [] }
  else
    { peer := p3, reason := reason3, commands := cmds,
      alerts := [], sendResults := [] }

/-- Result of one full cycle over the peer list. -/
structure CycleResult where
  peers : List PiPeer
  reason : Option String
  alerts : List Alert
  sendResults : List (Except String String)
deriving Repr

/-- One cycle of the main loop (`src/pi-peer-healthcheck.py`,
lines 156-203): every peer in `peerList` is processed in order, the
`reason` local carrying over from one peer to the next.  Each peer's
external outcomes are the corresponding entry of `envs`. -/
def runCycle (cfg : Config) : List PiPeer → List ProbeEnv → Option String → CycleResult
  | [], _, reason => { peers := [], reason := reason, alerts := [], sendResults := [] }
  | p :: ps, envs, reason =>
      let r := checkPeer cfg (envs.headD default) p reason
      let rest := runCycle cfg ps envs.tail r.reason
      { peers := r.peer :: rest.peers, reason := rest.reason,
        alerts := r.alerts ++ rest.alerts,
        sendResults := r.sendResults ++ rest.sendResults }

/-- The per-cycle status report (`src/pi-peer-healthcheck.py`, line 206):
`{peer.hostname: peer.status for peer in peerList}`. -/
def statusReport (peers : List PiPeer) : List (String × String) :=
  peers.map (fun p => (p.hostname, p.status))

/-- Daemon mode (`src/pi-peer-healthcheck.py`, lines 156-213): successive
cycles over the same peer list, one `List ProbeEnv` per cycle; returns
every cycle's status report and the final peer states.  The `reason`
local persists across cycles (it is a local of `main`). -/
def runCycles (cfg : Config) : List (List ProbeEnv) → List PiPeer → Option String →
    List (List (String × String)) × List PiPeer
  | [], peers, _ => ([], peers)
  | envs :: rest, peers, reason =>
      let r := runCycle cfg peers envs reason
      let next := runCycles cfg rest r.peers r.reason
      (statusReport r.peers :: next.1, next.2)

/-- The one-time initialization-failure alert
(`src/pi-peer-healthcheck.py`, lines 146-148); the `ValueError` message
interpolated into the body is the one raised by `PiPeer.__init__`. -/
def init_alert (addr peer : String) : Alert :=
  { recipient := addr,
    subject := SUBJECT_PREFIX ++ "Raspberry Pi Peer " ++ peer ++ " could not be initialized!",
    body := "Healthcheck for peer " ++ peer ++
      " could not be initialized due to: Could not resolve hostname for peer: " ++
      peer ++ ".\n\nPlease investigate the issue." }

/-- Startup peer construction (`src/pi-peer-healthcheck.py`, lines
132-153): each hostname whose `PiPeer.__init__` succeeds joins `peerList`;
a hostname whose construction raises is skipped (`continue`) and, when
`--email` is set, triggers one initialization-failure alert.  Alerts are
returned tagged with the failing hostname. -/
def initPeers (cfg : Config) : List (String × Option String) →
    List PiPeer × List (String × Alert)
  | [] => ([], [])
  | (h, res) :: rest =>
      let next := initPeers cfg rest
      match PiPeer.init h res with
      | some p => (p :: next.1, next.2)
      | none =>
          match cfg.email with
          | some addr => (next.1, (h, init_alert addr h) :: next.2)
          | none => next

/-- The value of the `reason` local right after the resolve step of the
per-peer sequence (`src/pi-peer-healthcheck.py`, lines 163-168): a failed
resolution assigns `"Hostname cannot be resolved"`, a successful one
leaves `reason` as it was. -/
def reasonAfterResolve (res : Option String) (reason0 : Option String) : Option String :=
  match res with
  | none => some "Hostname cannot be resolved"
  | some _ => reason0

/-- Replace the SMTP-delivery outcome of an environment, leaving the probe
outcomes untouched; used to state that the health results do not depend on
whether alert delivery succeeds. -/
def setSendOk (b : Bool) (e : ProbeEnv) : ProbeEnv := { e with sendOk := b }

/-! ## Basic characterizations of the peer operations -/

/-- `resolve_ip` simply forwards the resolver outcome and leaves the peer
untouched (the `self.status = "healthy"` after its `return` never runs). -/
theorem resolve_ip_eq (p : PiPeer) (res : Option String) :
    PiPeer.resolve_ip p res = (res, p) := by
  cases res <;> rfl

/-- Normal form of `peer_ping`: the status written and the Boolean
returned are both determined by whether the subprocess outcome counts as a
failure. -/
theorem peer_ping_spec (p : PiPeer) (t : Nat) (sub : ProcResult) :
    PiPeer.peer_ping p t sub =
      ({ p with status := if procFails sub then "unhealthy" else "healthy" },
       !procFails sub) := by
  cases sub with
  | exitCode c =>
      by_cases h : c = 0 <;> simp [PiPeer.peer_ping, procFails, h]
  | raised => rfl

/-- Normal form of `test_dns`, identical in shape to `peer_ping_spec`. -/
theorem test_dns_spec (p : PiPeer) (t : Nat) (sub : ProcResult) :
    PiPeer.test_dns p t sub =
      ({ p with status := if procFails sub then "unhealthy" else "healthy" },
       !procFails sub) := by
  cases sub with
  | exitCode c =>
      by_cases h : c = 0 <;> simp [PiPeer.test_dns, procFails, h]
  | raised => rfl

/-- Normal form of the resolve/ping/dns sequence of one peer in one cycle:
the final status is decided by the last probe that ran, the `reason` local
by the last failing step, and the commands never involve the per-cycle
resolution result. -/
theorem checkProbes_eq (cfg : Config) (env : ProbeEnv) (p : PiPeer) (r : Option String) :
    checkProbes cfg env p r =
      ({ p with status :=
          if cfg.dnscheck then (if procFails env.dnsRes then "unhealthy" else "healthy")
          else (if procFails env.pingRes then "unhealthy" else "healthy") },
       (if cfg.dnscheck then
          (if procFails env.dnsRes then some "Host not responding to DNS queries"
           else if procFails env.pingRes then some "Host cannot be pinged"
           else reasonAfterResolve env.resolveRes r)
        else if procFails env.pingRes then some "Host cannot be pinged"
        else reasonAfterResolve env.resolveRes r),
       (if cfg.dnscheck then [ping_command p cfg.timeout, dns_command p cfg.timeout]
        else [ping_command p cfg.timeout])) := by
  simp only [checkProbes, resolve_ip_eq, peer_ping_spec, test_dns_spec]
  cases hd : cfg.dnscheck <;>
    cases hp : procFails env.pingRes <;>
      cases hq : procFails env.dnsRes <;>
        cases hr : env.resolveRes <;>
          simp [hd, hp, hq, hr, reasonAfterResolve, dns_command]

/-- The peer state `checkPeer` returns is the one produced by the probes;
the alert step never writes to the peer. -/
theorem checkPeer_peer (cfg : Config) (env : ProbeEnv) (p : PiPeer) (r : Option String) :
    (checkPeer cfg env p r).peer = (checkProbes cfg env p r).1 := by
  simp only [checkPeer]
  split
  · cases cfg.email <;> rfl
  · rfl

/-- The `reason` local `checkPeer` returns is the one produced by the
probes; the alert step only reads it. -/
theorem checkPeer_reason (cfg : Config) (env : ProbeEnv) (p : PiPeer) (r : Option String) :
    (checkPeer cfg env p r).reason = (checkProbes cfg env p r).2.1 := by
  simp only [checkPeer]
  split
  · cases cfg.email <;> rfl
  · rfl

/-- The subprocess commands `checkPeer` runs are exactly the probe
commands. -/
theorem checkPeer_commands (cfg : Config) (env : ProbeEnv) (p : PiPeer) (r : Option String) :
    (checkPeer cfg env p r).commands = (checkProbes cfg env p r).2.2 := by
  simp only [checkPeer]
  split
  · cases cfg.email <;> rfl
  · rfl

/-- The alert messages `checkPeer` hands to `send_email`: one alert when
the finalized status is `"unhealthy"` and `--email` is set, none
otherwise. -/
theorem checkPeer_alerts_eq (cfg : Config) (env : ProbeEnv) (p : PiPeer) (r : Option String) :
    (checkPeer cfg env p r).alerts =
      (if (checkProbes cfg env p r).1.status = "unhealthy" then
        (match cfg.email with
         | some addr =>
             [{ recipient := addr,
                subject := alert_subject (checkProbes cfg env p r).1,
                body := alert_body (checkProbes cfg env p r).1 (checkProbes cfg env p r).2.1 }]
         | none => [])
        else []) := by
  simp only [checkPeer]
  split
  · cases cfg.email <;> simp_all
  · simp_all

/-! ## Driver-level lemmas -/

/-- A cycle never changes a peer's hostname. -/
theorem checkPeer_hostname (cfg : Config) (env : ProbeEnv) (p : PiPeer) (r : Option String) :
    (checkPeer cfg env p r).peer.hostname = p.hostname := by
  rw [checkPeer_peer, checkProbes_eq]

/-- The keys of a status report are the peers' hostnames. -/
theorem statusReport_fst (qs : List PiPeer) :
    (statusReport qs).map Prod.fst = qs.map PiPeer.hostname := by
  induction qs <;> simp_all [statusReport]

/-- One cycle preserves the hostname list of the peer list. -/
theorem runCycle_hostnames (cfg : Config) (ps : List PiPeer) (envs : List ProbeEnv)
    (r : Option String) :
    (runCycle cfg ps envs r).peers.map PiPeer.hostname = ps.map PiPeer.hostname := by
  induction ps generalizing envs r with
  | nil => rfl
  | cons a l ih => simp [runCycle, checkPeer_hostname, ih]

/-- Every per-cycle status report of a run lists exactly the hostnames of
the starting peer list. -/
theorem runCycles_report_names (cfg : Config) (cycles : List (List ProbeEnv))
    (ps : List PiPeer) (r : Option String) :
    ∀ rep ∈ (runCycles cfg cycles ps r).1, rep.map Prod.fst = ps.map PiPeer.hostname := by
  induction cycles generalizing ps r with
  | nil => intro rep hrep; simp [runCycles] at hrep
  | cons envs rest ih =>
      intro rep hrep
      simp only [runCycles, List.mem_cons] at hrep
      rcases hrep with hrep | hrep
      · rw [hrep, statusReport_fst, runCycle_hostnames]
      · rw [ih _ _ rep hrep, runCycle_hostnames]

/-- A hostname all of whose configuration entries fail startup resolution
does not make it into the active peer list. -/
theorem initPeers_excludes (cfg : Config) (h : String) (inits : List (String × Option String))
    (hall : ∀ res, (h, res) ∈ inits → res = none) :
    h ∉ (initPeers cfg inits).1.map PiPeer.hostname := by
  induction inits with
  | nil => simp [initPeers]
  | cons pr rest ih =>
      obtain ⟨h', res'⟩ := pr
      have ih' := ih (fun res hm => hall res (List.mem_cons_of_mem _ hm))
      cases res' with
      | none => cases hm : cfg.email <;> simp [initPeers, PiPeer.init, hm, ih']
      | some ip =>
          have hne : ¬ h = h' := by
            intro he
            subst he
            exact Option.noConfusion (hall (some ip) (List.mem_cons_self _ _))
          simp [initPeers, PiPeer.init, ih', hne]

/-- With `--email` configured, the initialization alerts tagged with a
hostname whose entries all fail resolution are exactly that hostname's
configuration entries. -/
theorem initPeers_alert_count (cfg : Config) (h : String)
    (inits : List (String × Option String)) (addr : String)
    (hmail : cfg.email = some addr)
    (hall : ∀ res, (h, res) ∈ inits → res = none) :
    (initPeers cfg inits).2.countP (fun x => x.1 == h) = inits.countP (fun x => x.1 == h) := by
  induction inits with
  | nil => rfl
  | cons pr rest ih =>
      obtain ⟨h', res'⟩ := pr
      have ih' := ih (fun res hm => hall res (List.mem_cons_of_mem _ hm))
      cases res' with
      | none => simp [initPeers, PiPeer.init, hmail, List.countP_cons, ih']
      | some ip =>
          have hne : ¬ h' = h := by
            intro he
            subst he
            exact Option.noConfusion (hall (some ip) (List.mem_cons_self _ _))
          simp [initPeers, PiPeer.init, List.countP_cons, hne, ih']

/-- One peer's processing invokes `send_email` exactly once when its
finalized status is `"unhealthy"` and `--email` is set, and never
otherwise. -/
theorem checkPeer_alert_count (cfg : Config) (env : ProbeEnv) (p : PiPeer) (r : Option String) :
    (checkPeer cfg env p r).alerts.length =
      if (checkPeer cfg env p r).peer.status = "unhealthy" ∧ cfg.email.isSome then 1 else 0 := by
  rw [checkPeer_alerts_eq, checkPeer_peer]
  cases hm : cfg.email <;>
    by_cases hs : (checkProbes cfg env p r).1.status = "unhealthy" <;> simp [hm, hs]

/-- Over a whole cycle the number of alert sends equals the number of
peers finalized `"unhealthy"` when `--email` is set, and is zero when it
is not. -/
theorem runCycle_alert_count (cfg : Config) (ps : List PiPeer) (envs : List ProbeEnv)
    (r0 : Option String) :
    (runCycle cfg ps envs r0).alerts.length =
      if cfg.email.isSome then
        (runCycle cfg ps envs r0).peers.countP (fun q => q.status == "unhealthy")
      else 0 := by
  induction ps generalizing envs r0 with
  | nil => cases hm : cfg.email <;> simp [runCycle, hm]
  | cons a l ih =>
      cases hm : cfg.email with
      | none => simp [runCycle, checkPeer_alert_count, hm, ih]
      | some addr =>
          simp only [runCycle, List.length_append, checkPeer_alert_count, hm, ih,
            List.countP_cons, Option.isSome_some, if_true]
          by_cases hs : (checkPeer cfg (envs.headD default) a r0).peer.status = "unhealthy" <;>
            simp [hs] <;> omega

/-- The probe sequence reads nothing from the SMTP-delivery outcome. -/
theorem checkProbes_sendOk (cfg : Config) (b : Bool) (env : ProbeEnv) (p : PiPeer)
    (r : Option String) :
    checkProbes cfg (setSendOk b env) p r = checkProbes cfg env p r := rfl

/-- One peer's health outcome, recorded reason and alert messages do not
depend on whether the alert send succeeds. -/
theorem checkPeer_sendOk (cfg : Config) (b : Bool) (env : ProbeEnv) (p : PiPeer)
    (r : Option String) :
    (checkPeer cfg (setSendOk b env) p r).peer = (checkPeer cfg env p r).peer ∧
    (checkPeer cfg (setSendOk b env) p r).reason = (checkPeer cfg env p r).reason ∧
    (checkPeer cfg (setSendOk b env) p r).alerts = (checkPeer cfg env p r).alerts := by
  refine ⟨?_, ?_, ?_⟩ <;>
    simp [checkPeer_peer, checkPeer_reason, checkPeer_alerts_eq, checkProbes_sendOk]

/-- A whole cycle's peer states and `reason` local do not depend on any
SMTP-delivery outcome. -/
theorem runCycle_sendOk (cfg : Config) (b : Bool) (ps : List PiPeer) (envs : List ProbeEnv)
    (r0 : Option String) :
    (runCycle cfg ps (envs.map (setSendOk b)) r0).peers = (runCycle cfg ps envs r0).peers ∧
    (runCycle cfg ps (envs.map (setSendOk b)) r0).reason = (runCycle cfg ps envs r0).reason := by
  induction ps generalizing envs r0 with
  | nil => exact ⟨rfl, rfl⟩
  | cons a l ih =>
      cases envs with
      | nil => exact ⟨rfl, rfl⟩
      | cons e es =>
          have hc := checkPeer_sendOk cfg b e a r0
          simp only [runCycle, List.map_cons, List.headD_cons, List.tail_cons]
          rw [hc.1, hc.2.1]
          have hr := ih es (checkPeer cfg e a r0).reason
          exact ⟨by rw [hr.1], by rw [hr.2]⟩

/-- Every peer of the list is processed in every cycle. -/
theorem runCycle_length (cfg : Config) (ps : List PiPeer) (envs : List ProbeEnv)
    (r0 : Option String) :
    (runCycle cfg ps envs r0).peers.length = ps.length := by
  induction ps generalizing envs r0 with
  | nil => rfl
  | cons a l ih => simp [runCycle, ih]

/-! ## The claims -/

/-- Claim C1 (code bug): the spec states that a ping-probe failure makes the
peer's final status Unhealthy even when a subsequent DNS probe succeeds.
The code does the opposite: `test_dns` sets `status = "healthy"` on success,
overwriting the `"unhealthy"` written by the failed ping, so at the failing
input below (DNS-checking enabled, ping exits 1, nslookup exits 0) the final
status is `"healthy"` and no alert fires. -/
theorem ping_failure_overwritten_by_dns_success :
    procFails (ProcResult.exitCode 1) = true ∧
    procFails (ProcResult.exitCode 0) = false ∧
    (checkPeer
      { dnscheck := true, email := some "ops@example.com", smtp_server := "mail.protonmail.ch",
        timeout := 5, localHostname := "pi0" }
      { resolveRes := some "10.0.0.1", pingRes := ProcResult.exitCode 1,
        dnsRes := ProcResult.exitCode 0, sendOk := true }
      { hostname := "pi1", ip_address := "10.0.0.1", status := "unknown" } none).peer.status
      = "healthy" ∧
    (checkPeer
      { dnscheck := true, email := some "ops@example.com", smtp_server := "mail.protonmail.ch",
        timeout := 5, localHostname := "pi0" }
      { resolveRes := some "10.0.0.1", pingRes := ProcResult.exitCode 1,
        dnsRes := ProcResult.exitCode 0, sendOk := true }
      { hostname := "pi1", ip_address := "10.0.0.1", status := "unknown" } none).alerts = [] :=
  ⟨rfl, rfl, rfl, rfl⟩

/-- Claim C2, counterexample: the per-cycle resolution returns the new
address `"10.0.0.2"`, yet after the peer's check sequence the stored
`ip_address` is still the construction-time `"10.0.0.1"` — the stored
address is never updated, contradicting the claim that it is "updated to
the new resolution result". -/
theorem address_never_updated_cex :
    ((checkPeer
      { dnscheck := false, email := none, smtp_server := "mail.protonmail.ch",
        timeout := 5, localHostname := "pi0" }
      { resolveRes := some "10.0.0.2", pingRes := ProcResult.exitCode 0,
        dnsRes := ProcResult.exitCode 0, sendOk := true }
      { hostname := "pi1", ip_address := "10.0.0.1", status := "unknown" } none).peer.ip_address
      == "10.0.0.2") = false ∧
    (checkPeer
      { dnscheck := false, email := none, smtp_server := "mail.protonmail.ch",
        timeout := 5, localHostname := "pi0" }
      { resolveRes := some "10.0.0.2", pingRes := ProcResult.exitCode 0,
        dnsRes := ProcResult.exitCode 0, sendOk := true }
      { hostname := "pi1", ip_address := "10.0.0.1", status := "unknown" } none).peer.ip_address
      = "10.0.0.1" :=
  ⟨by decide, rfl⟩

/-- Claim C2, amended: `resolve_ip` is invoked every cycle but its result is
only logged; the stored address never changes across a peer's check
sequence, and the ping step always executes — first among the subprocess
commands — against the previously known (construction-time) address,
whether or not the per-cycle resolution succeeded. -/
theorem address_immutable_ping_always_runs (cfg : Config) (env : ProbeEnv) (p : PiPeer)
    (r : Option String) :
    (checkPeer cfg env p r).peer.ip_address = p.ip_address ∧
    (checkPeer cfg env p r).commands.head? = some (ping_command p cfg.timeout) := by
  rw [checkPeer_peer, checkPeer_commands, checkProbes_eq]
  cases hd : cfg.dnscheck <;> simp [hd]

/-- Claim C3, counterexample: with only the ping check enabled and the ping
probe failing, the recorded reason is the source literal
`"Host cannot be pinged"`, not the string `"host unreachable via network
probe"` asserted by the claim. -/
theorem ping_reason_literal_cex :
    (checkPeer
      { dnscheck := false, email := some "ops@example.com", smtp_server := "mail.protonmail.ch",
        timeout := 5, localHostname := "pi0" }
      { resolveRes := some "10.0.0.1", pingRes := ProcResult.exitCode 1,
        dnsRes := ProcResult.exitCode 0, sendOk := true }
      { hostname := "pi1", ip_address := "10.0.0.1", status := "unknown" } none).peer.status
      = "unhealthy" ∧
    ((checkPeer
      { dnscheck := false, email := some "ops@example.com", smtp_server := "mail.protonmail.ch",
        timeout := 5, localHostname := "pi0" }
      { resolveRes := some "10.0.0.1", pingRes := ProcResult.exitCode 1,
        dnsRes := ProcResult.exitCode 0, sendOk := true }
      { hostname := "pi1", ip_address := "10.0.0.1", status := "unknown" } none).reason
      == some "host unreachable via network probe") = false ∧
    (checkPeer
      { dnscheck := false, email := some "ops@example.com", smtp_server := "mail.protonmail.ch",
        timeout := 5, localHostname := "pi0" }
      { resolveRes := some "10.0.0.1", pingRes := ProcResult.exitCode 1,
        dnsRes := ProcResult.exitCode 0, sendOk := true }
      { hostname := "pi1", ip_address := "10.0.0.1", status := "unknown" } none).reason
      = some "Host cannot be pinged" :=
  ⟨rfl, by decide, rfl⟩

/-- Claim C3, amended: for every peer with only the ping check enabled
(`--dnscheck` off) and an alert recipient configured, a ping-probe failure
yields final status `"unhealthy"` and recorded reason equal to the source
literal `"Host cannot be pinged"`, and exactly that reason is carried in
the body of the alert that fires. -/
theorem ping_only_failure_reason (cfg : Config) (env : ProbeEnv) (p : PiPeer)
    (r : Option String) (addr : String)
    (hdns : cfg.dnscheck = false) (hmail : cfg.email = some addr)
    (hfail : procFails env.pingRes = true) :
    (checkPeer cfg env p r).peer.status = "unhealthy" ∧
    (checkPeer cfg env p r).reason = some "Host cannot be pinged" ∧
    (checkPeer cfg env p r).alerts =
      [{ recipient := addr,
         subject := alert_subject (checkPeer cfg env p r).peer,
         body := alert_body (checkPeer cfg env p r).peer (some "Host cannot be pinged") }] := by
  simp [checkPeer_peer, checkPeer_reason, checkPeer_alerts_eq, checkProbes_eq,
    hdns, hmail, hfail]

/-- Witness for the amended claim C3 at a concrete input. -/
theorem ping_only_failure_reason_witness :
    (checkPeer
      { dnscheck := false, email := some "ops@example.com", smtp_server := "mail.protonmail.ch",
        timeout := 5, localHostname := "pi0" }
      { resolveRes := some "10.0.0.5", pingRes := ProcResult.exitCode 1,
        dnsRes := ProcResult.exitCode 0, sendOk := true }
      { hostname := "pi5", ip_address := "10.0.0.5", status := "unknown" } none).peer.status
      = "unhealthy" ∧
    (checkPeer
      { dnscheck := false, email := some "ops@example.com", smtp_server := "mail.protonmail.ch",
        timeout := 5, localHostname := "pi0" }
      { resolveRes := some "10.0.0.5", pingRes := ProcResult.exitCode 1,
        dnsRes := ProcResult.exitCode 0, sendOk := true }
      { hostname := "pi5", ip_address := "10.0.0.5", status := "unknown" } none).reason
      = some "Host cannot be pinged" ∧
    (checkPeer
      { dnscheck := false, email := some "ops@example.com", smtp_server := "mail.protonmail.ch",
        timeout := 5, localHostname := "pi0" }
      { resolveRes := some "10.0.0.5", pingRes := ProcResult.exitCode 1,
        dnsRes := ProcResult.exitCode 0, sendOk := true }
      { hostname := "pi5", ip_address := "10.0.0.5", status := "unknown" } none).alerts =
      [{ recipient := "ops@example.com",
         subject := alert_subject (checkPeer
           { dnscheck := false, email := some "ops@example.com",
             smtp_server := "mail.protonmail.ch", timeout := 5, localHostname := "pi0" }
           { resolveRes := some "10.0.0.5", pingRes := ProcResult.exitCode 1,
             dnsRes := ProcResult.exitCode 0, sendOk := true }
           { hostname := "pi5", ip_address := "10.0.0.5", status := "unknown" } none).peer,
         body := alert_body (checkPeer
           { dnscheck := false, email := some "ops@example.com",
             smtp_server := "mail.protonmail.ch", timeout := 5, localHostname := "pi0" }
           { resolveRes := some "10.0.0.5", pingRes := ProcResult.exitCode 1,
             dnsRes := ProcResult.exitCode 0, sendOk := true }
           { hostname := "pi5", ip_address := "10.0.0.5", status := "unknown" } none).peer
           (some "Host cannot be pinged") }] :=
  ping_only_failure_reason _ _ _ none "ops@example.com" rfl rfl rfl

/-- Claim C4 (confirmed): with DNS-checking enabled, when both the ping
probe and the DNS probe fail, the recorded reason is the DNS failure
literal `"Host not responding to DNS queries"` — overwriting the ping
failure reason — and that reason is what the alert body carries
(last-failure-wins). -/
theorem both_fail_dns_reason_wins (cfg : Config) (env : ProbeEnv) (p : PiPeer)
    (r : Option String) (addr : String)
    (hdns : cfg.dnscheck = true) (hmail : cfg.email = some addr)
    (hping : procFails env.pingRes = true) (hdnsf : procFails env.dnsRes = true) :
    (checkPeer cfg env p r).peer.status = "unhealthy" ∧
    (checkPeer cfg env p r).reason = some "Host not responding to DNS queries" ∧
    (checkPeer cfg env p r).alerts =
      [{ recipient := addr,
         subject := alert_subject (checkPeer cfg env p r).peer,
         body := alert_body (checkPeer cfg env p r).peer
           (some "Host not responding to DNS queries") }] := by
  simp [checkPeer_peer, checkPeer_reason, checkPeer_alerts_eq, checkProbes_eq,
    hdns, hmail, hping, hdnsf]

/-- Witness for claim C4 at a concrete input (ping exits 1, nslookup run
raises). -/
theorem both_fail_dns_reason_wins_witness :
    (checkPeer
      { dnscheck := true, email := some "ops@example.com", smtp_server := "mail.protonmail.ch",
        timeout := 5, localHostname := "pi0" }
      { resolveRes := some "10.0.0.7", pingRes := ProcResult.exitCode 1,
        dnsRes := ProcResult.raised, sendOk := true }
      { hostname := "pi7", ip_address := "10.0.0.7", status := "unknown" } none).peer.status
      = "unhealthy" ∧
    (checkPeer
      { dnscheck := true, email := some "ops@example.com", smtp_server := "mail.protonmail.ch",
        timeout := 5, localHostname := "pi0" }
      { resolveRes := some "10.0.0.7", pingRes := ProcResult.exitCode 1,
        dnsRes := ProcResult.raised, sendOk := true }
      { hostname := "pi7", ip_address := "10.0.0.7", status := "unknown" } none).reason
      = some "Host not responding to DNS queries" ∧
    (checkPeer
      { dnscheck := true, email := some "ops@example.com", smtp_server := "mail.protonmail.ch",
        timeout := 5, localHostname := "pi0" }
      { resolveRes := some "10.0.0.7", pingRes := ProcResult.exitCode 1,
        dnsRes := ProcResult.raised, sendOk := true }
      { hostname := "pi7", ip_address := "10.0.0.7", status := "unknown" } none).alerts =
      [{ recipient := "ops@example.com",
         subject := alert_subject (checkPeer
           { dnscheck := true, email := some "ops@example.com",
             smtp_server := "mail.protonmail.ch", timeout := 5, localHostname := "pi0" }
           { resolveRes := some "10.0.0.7", pingRes := ProcResult.exitCode 1,
             dnsRes := ProcResult.raised, sendOk := true }
           { hostname := "pi7", ip_address := "10.0.0.7", status := "unknown" } none).peer,
         body := alert_body (checkPeer
           { dnscheck := true, email := some "ops@example.com",
             smtp_server := "mail.protonmail.ch", timeout := 5, localHostname := "pi0" }
           { resolveRes := some "10.0.0.7", pingRes := ProcResult.exitCode 1,
             dnsRes := ProcResult.raised, sendOk := true }
           { hostname := "pi7", ip_address := "10.0.0.7", status := "unknown" } none).peer
           (some "Host not responding to DNS queries") }] :=
  both_fail_dns_reason_wins _ _ _ none "ops@example.com" rfl rfl rfl rfl

/-- Claim C5, counterexample: every enabled probe succeeds, yet the
`reason` variable still holds the stale value it carried into this peer's
checks — it is not cleared; the status does become `"healthy"`. -/
theorem reason_not_cleared_cex :
    (checkPeer
      { dnscheck := true, email := some "ops@example.com", smtp_server := "mail.protonmail.ch",
        timeout := 5, localHostname := "pi0" }
      { resolveRes := some "10.0.0.1", pingRes := ProcResult.exitCode 0,
        dnsRes := ProcResult.exitCode 0, sendOk := true }
      { hostname := "pi1", ip_address := "10.0.0.1", status := "unknown" }
      (some "Host cannot be pinged")).peer.status = "healthy" ∧
    (checkPeer
      { dnscheck := true, email := some "ops@example.com", smtp_server := "mail.protonmail.ch",
        timeout := 5, localHostname := "pi0" }
      { resolveRes := some "10.0.0.1", pingRes := ProcResult.exitCode 0,
        dnsRes := ProcResult.exitCode 0, sendOk := true }
      { hostname := "pi1", ip_address := "10.0.0.1", status := "unknown" }
      (some "Host cannot be pinged")).reason.isSome = true ∧
    (checkPeer
      { dnscheck := true, email := some "ops@example.com", smtp_server := "mail.protonmail.ch",
        timeout := 5, localHostname := "pi0" }
      { resolveRes := some "10.0.0.1", pingRes := ProcResult.exitCode 0,
        dnsRes := ProcResult.exitCode 0, sendOk := true }
      { hostname := "pi1", ip_address := "10.0.0.1", status := "unknown" }
      (some "Host cannot be pinged")).reason = some "Host cannot be pinged" :=
  ⟨rfl, rfl, rfl⟩

/-- Claim C5, amended: if every enabled probe succeeds (ping succeeds, and
the DNS probe succeeds when DNS-checking is enabled), the peer's final
status is `"healthy"` and no alert fires; the `reason` variable is not
cleared — it keeps whatever value the resolve step left it
(`"Hostname cannot be resolved"` if this cycle's resolution failed,
otherwise its incoming value), but it is only ever read when an alert
fires. -/
theorem all_probes_succeed_healthy (cfg : Config) (env : ProbeEnv) (p : PiPeer)
    (r : Option String)
    (hping : procFails env.pingRes = false)
    (hdnsok : cfg.dnscheck = true → procFails env.dnsRes = false) :
    (checkPeer cfg env p r).peer.status = "healthy" ∧
    (checkPeer cfg env p r).alerts = [] ∧
    (checkPeer cfg env p r).reason = reasonAfterResolve env.resolveRes r := by
  cases hd : cfg.dnscheck with
  | true =>
      simp [checkPeer_peer, checkPeer_reason, checkPeer_alerts_eq, checkProbes_eq,
        hd, hping, hdnsok hd]
  | false =>
      simp [checkPeer_peer, checkPeer_reason, checkPeer_alerts_eq, checkProbes_eq,
        hd, hping]

/-- Witness for the amended claim C5 at a concrete input. -/
theorem all_probes_succeed_healthy_witness :
    (checkPeer
      { dnscheck := true, email := some "ops@example.com", smtp_server := "mail.protonmail.ch",
        timeout := 5, localHostname := "pi0" }
      { resolveRes := some "10.0.0.9", pingRes := ProcResult.exitCode 0,
        dnsRes := ProcResult.exitCode 0, sendOk := true }
      { hostname := "pi9", ip_address := "10.0.0.9", status := "unknown" } none).peer.status
      = "healthy" ∧
    (checkPeer
      { dnscheck := true, email := some "ops@example.com", smtp_server := "mail.protonmail.ch",
        timeout := 5, localHostname := "pi0" }
      { resolveRes := some "10.0.0.9", pingRes := ProcResult.exitCode 0,
        dnsRes := ProcResult.exitCode 0, sendOk := true }
      { hostname := "pi9", ip_address := "10.0.0.9", status := "unknown" } none).alerts = [] ∧
    (checkPeer
      { dnscheck := true, email := some "ops@example.com", smtp_server := "mail.protonmail.ch",
        timeout := 5, localHostname := "pi0" }
      { resolveRes := some "10.0.0.9", pingRes := ProcResult.exitCode 0,
        dnsRes := ProcResult.exitCode 0, sendOk := true }
      { hostname := "pi9", ip_address := "10.0.0.9", status := "unknown" } none).reason
      = reasonAfterResolve (some "10.0.0.9") none :=
  all_probes_succeed_healthy _ _ _ none rfl (fun _ => rfl)

/-- Claim C6 (confirmed): `resolve_ip` is a pure query — for any call,
successful or failing, it leaves every field of the peer unchanged (in
particular `status`), and a failing call returns `None` instead of
raising. -/
theorem resolve_ip_is_pure (p : PiPeer) (res : Option String) :
    (PiPeer.resolve_ip p res).2 = p ∧
    (PiPeer.resolve_ip p res).2.status = p.status ∧
    (PiPeer.resolve_ip p none).1 = none := by
  cases res <;> exact ⟨rfl, rfl, rfl⟩

/-- Claim C7 (confirmed): a hostname whose startup resolution fails (all of
its configuration entries resolve to `None`; it occurs exactly once in the
configured list) is excluded from the active peer list, produces exactly
one initialization-failure alert when an alert recipient is configured,
and appears in no cycle's status report for the whole run. -/
theorem startup_failure_excluded (cfg : Config) (inits : List (String × Option String))
    (h addr : String) (cycles : List (List ProbeEnv))
    (hall : inits.all (fun x => !(x.1 == h) || (x.2 == none)) = true)
    (huniq : inits.countP (fun x => x.1 == h) = 1)
    (hmail : cfg.email = some addr) :
    h ∉ (initPeers cfg inits).1.map PiPeer.hostname ∧
    (initPeers cfg inits).2.countP (fun x => x.1 == h) = 1 ∧
    (runCycles cfg cycles (initPeers cfg inits).1 none).1.all
      (fun rep => rep.all (fun e => !(e.1 == h))) = true := by
  have hall2 : ∀ res, (h, res) ∈ inits → res = none := by
    intro res hm
    have h2 := List.all_eq_true.mp hall (h, res) hm
    simp at h2
    exact h2
  have hex := initPeers_excludes cfg h inits hall2
  refine ⟨hex, ?_, ?_⟩
  · rw [initPeers_alert_count cfg h inits addr hmail hall2, huniq]
  · rw [List.all_eq_true]
    intro rep hrep
    rw [List.all_eq_true]
    intro e he
    have hfst := runCycles_report_names cfg cycles (initPeers cfg inits).1 none rep hrep
    simp only [Bool.not_eq_eq_eq_not, Bool.not_true, beq_eq_false_iff_ne, ne_eq]
    intro hc
    apply hex
    have hmem : e.1 ∈ rep.map Prod.fst := List.mem_map_of_mem _ he
    rw [hfst, hc] at hmem
    exact hmem

/-- Witness for claim C7: a two-peer configuration where `"bad"` fails
startup resolution, followed by a two-cycle run of the surviving peer. -/
theorem startup_failure_excluded_witness :
    "bad" ∉ (initPeers
      { dnscheck := false, email := some "ops@example.com",
        smtp_server := "mail.protonmail.ch", timeout := 5, localHostname := "pi0" }
      [("pia", some "10.0.0.1"), ("bad", none)]).1.map PiPeer.hostname ∧
    (initPeers
      { dnscheck := false, email := some "ops@example.com",
        smtp_server := "mail.protonmail.ch", timeout := 5, localHostname := "pi0" }
      [("pia", some "10.0.0.1"), ("bad", none)]).2.countP (fun x => x.1 == "bad") = 1 ∧
    (runCycles
      { dnscheck := false, email := some "ops@example.com",
        smtp_server := "mail.protonmail.ch", timeout := 5, localHostname := "pi0" }
      [[{ resolveRes := some "10.0.0.1", pingRes := ProcResult.exitCode 0,
          dnsRes := ProcResult.exitCode 0, sendOk := true }],
       [{ resolveRes := none, pingRes := ProcResult.raised,
          dnsRes := ProcResult.exitCode 0, sendOk := true }]]
      (initPeers
        { dnscheck := false, email := some "ops@example.com",
          smtp_server := "mail.protonmail.ch", timeout := 5, localHostname := "pi0" }
        [("pia", some "10.0.0.1"), ("bad", none)]).1 none).1.all
      (fun rep => rep.all (fun e => !(e.1 == "bad"))) = true :=
  startup_failure_excluded _ _ "bad" "ops@example.com" _ (by decide) (by decide) rfl

/-- Claim C8 (confirmed): one peer's processing yields exactly one alert
when its finalized status is `"unhealthy"` and a recipient is configured
and zero otherwise; over a whole cycle the number of `send_email`
invocations equals the number of peers finalized `"unhealthy"` when a
recipient is configured, and is zero when none is. -/
theorem alert_iff_unhealthy_and_sink (cfg : Config) (env : ProbeEnv) (p : PiPeer)
    (r : Option String) (ps : List PiPeer) (envs : List ProbeEnv) (r0 : Option String) :
    ((checkPeer cfg env p r).alerts.length =
      if (checkPeer cfg env p r).peer.status = "unhealthy" ∧ cfg.email.isSome then 1 else 0) ∧
    ((runCycle cfg ps envs r0).alerts.length =
      if cfg.email.isSome then
        (runCycle cfg ps envs r0).peers.countP (fun q => q.status == "unhealthy")
      else 0) :=
  ⟨checkPeer_alert_count cfg env p r, runCycle_alert_count cfg ps envs r0⟩

/-- Claim C9 (confirmed): a failed alert send is contained — `send_email`
turns the SMTP failure into a typed error rather than crashing the cycle,
and a peer's health outcome, recorded reason, alert messages, the whole
cycle's peer states, and the fact that every peer gets checked are all
independent of the delivery outcomes. -/
theorem alert_failure_contained (cfg : Config) (env : ProbeEnv) (p : PiPeer)
    (r : Option String) (b : Bool) (fromAddr toAddr server subj bod : String)
    (ps : List PiPeer) (envs : List ProbeEnv) (r0 : Option String) :
    (send_email fromAddr toAddr server subj bod false =
      Except.error ("Failed to send email to " ++ toAddr)) ∧
    ((checkPeer cfg (setSendOk b env) p r).peer = (checkPeer cfg env p r).peer) ∧
    ((checkPeer cfg (setSendOk b env) p r).reason = (checkPeer cfg env p r).reason) ∧
    ((checkPeer cfg (setSendOk b env) p r).alerts = (checkPeer cfg env p r).alerts) ∧
    ((runCycle cfg ps (envs.map (setSendOk b)) r0).peers = (runCycle cfg ps envs r0).peers) ∧
    ((runCycle cfg ps envs r0).peers.length = ps.length) := by
  have hc := checkPeer_sendOk cfg b env p r
  exact ⟨rfl, hc.1, hc.2.1, hc.2.2, (runCycle_sendOk cfg b ps envs r0).1,
    runCycle_length cfg ps envs r0⟩

/-- Claim C10 (confirmed): the only status values the code ever writes are
`"unknown"` (set by the constructor, before any probe), `"healthy"` and
`"unhealthy"`; both probes are total on every outcome — including the
swallowed-exception branch — return a Boolean, and leave
`status = "healthy"` exactly when they return `True` and
`status = "unhealthy"` exactly when they return `False`; consequently
after one full check sequence the status is `"healthy"` or
`"unhealthy"`. -/
theorem status_invariant (h : String) (p : PiPeer) (t : Nat) (sub : ProcResult)
    (cfg : Config) (env : ProbeEnv) (r0 : Option String) :
    PiPeer.init h none = none ∧
    (∀ ip, PiPeer.init h (some ip) =
      some { hostname := h, ip_address := ip, status := "unknown" }) ∧
    ((PiPeer.peer_ping p t sub).1.status = "healthy" ↔ (PiPeer.peer_ping p t sub).2 = true) ∧
    ((PiPeer.peer_ping p t sub).1.status = "unhealthy" ↔ (PiPeer.peer_ping p t sub).2 = false) ∧
    ((PiPeer.test_dns p t sub).1.status = "healthy" ↔ (PiPeer.test_dns p t sub).2 = true) ∧
    ((PiPeer.test_dns p t sub).1.status = "unhealthy" ↔ (PiPeer.test_dns p t sub).2 = false) ∧
    ((PiPeer.peer_ping p t sub).1.status = "healthy" ∨
      (PiPeer.peer_ping p t sub).1.status = "unhealthy") ∧
    ((PiPeer.test_dns p t sub).1.status = "healthy" ∨
      (PiPeer.test_dns p t sub).1.status = "unhealthy") ∧
    ((checkPeer cfg env p r0).peer.status = "healthy" ∨
      (checkPeer cfg env p r0).peer.status = "unhealthy") := by
  refine ⟨rfl, fun ip => rfl, ?_, ?_, ?_, ?_, ?_, ?_, ?_⟩ <;>
    first
      | (cases hs : procFails sub <;> simp [peer_ping_spec, test_dns_spec, hs])
      | (rw [checkPeer_peer, checkProbes_eq]
         cases hd : cfg.dnscheck <;>
           cases hq : procFails env.dnsRes <;>
             cases hp : procFails env.pingRes <;> simp [hd, hq, hp])
